import Mathlib

/-!
Verification development for the reporting subsystem of a REST test runner
(`reporter.go`): the hierarchical console reporter, the per-suite JUnit XML
reporter and the broadcast (multi) reporter.  The supporting domain types
(`TimeFrame`, `Suite`, `Case`, `Trace`, `TestResult`) are external to the
given source file and are modelled from the specification.
-/

/-- Modelled from the spec: `TimeFrame` is a start/end instant pair with a
derived duration.  Instants are modelled as integers (milliseconds). -/
structure TimeFrame where
  Start : Int
  End : Int
deriving DecidableEq

/-- Modelled from the spec: the duration derived from a frame. -/
def TimeFrame.Duration (t : TimeFrame) : Int := t.End - t.Start

/-- Modelled from the spec: extending a frame with another widens the start
to the earlier and the end to the later of the two. -/
def TimeFrame.Extend (t other : TimeFrame) : TimeFrame :=
  { Start := min t.Start other.Start, End := max t.End other.End }

/-- Modelled from the spec: a suite has a short name plus a fully qualified
name and a dotted package name derived from its path; the two derived
values are modelled as fields. -/
structure Suite where
  Name : String
  FullName : String
  PackageName : String
deriving DecidableEq

/-- Modelled from the spec: a single test unit name, scoped to a suite. -/
structure Case where
  Name : String
deriving DecidableEq

/-- Modelled from the spec: the request descriptor of a trace. -/
structure Req where
  Method : String
  URL : String
deriving DecidableEq

/-- Modelled from the spec: a trace is a sub-operation with its own time
frame, an optional request descriptor and a mapping from expectation
description to its failure flag (a Go map, modelled as an association list
in iteration order). -/
structure Trace where
  Req : Option Req
  ExecFrame : TimeFrame
  ExpDesc : List (String × Bool)
deriving DecidableEq

/-- Modelled from the spec: one case's outcome — owning suite and case, an
execution time frame, an optional failure message (`Error` is non-nil iff
the case failed, and invoking it yields the message), a skipped flag with
optional free-text reason, and the traces. -/
structure TestResult where
  Suite : Suite
  Case : Case
  ExecFrame : TimeFrame
  Error : Option String
  Skipped : Bool
  SkippedMsg : String
  Traces : List Trace
deriving DecidableEq

/-- Modelled from the spec: a result has an error iff its failure is non-nil. -/
def TestResult.hasError (r : TestResult) : Bool := r.Error.isSome

/-- `const DefaultIntendSize = 4`. -/
def DefaultIntendSize : Int := 4

/-- `CaretIcon = "└"`. -/
def CaretIcon : String := "└"

/-- `Status` of an outcome: icon, label and display color (the numeric ANSI
attribute used by the color package). -/
structure Status where
  Icon : String
  Label : String
  Color : Nat
deriving DecidableEq

/-- `OutputLabel int = iota` — label mode. -/
def OutputLabel : Nat := 0

/-- `OutputIcon` — icon mode. -/
def OutputIcon : Nat := 1

/-- `StatusPassed`: green check. -/
def StatusPassed : Status := { Icon := "√", Label := "PASSED", Color := 32 }

/-- `StatusFailed`: red cross. -/
def StatusFailed : Status := { Icon := "×", Label := "FAILED", Color := 31 }

/-- `StatusSkipped`: yellow, no icon. -/
def StatusSkipped : Status := { Icon := "", Label := "SKIPPED", Color := 33 }

/-- One write to the shared console sink.  Plain writes keep their text;
status and dimmed writes go through the color package and are recorded with
their color attribute; duration writes record the duration value (the
source formats it, rounded to milliseconds, via fmt). -/
inductive OutTok where
  | str (s : String)
  | colored (s : String) (c : Nat)
  | dim (s : String)
  | dur (d : Int)
deriving DecidableEq

/-- State of `ConsoleReporter`: exit code, indentation size, the running
totals, the run-level time frame and the output written so far (the
`Writer` and the color package's standard output are the same sink in the
shipped configuration, so they are modelled as one stream). -/
structure ConsoleReporter where
  ExitCode : Int
  IntendSize : Int
  execFrame : TimeFrame
  total : Nat
  failed : Nat
  skipped : Nat
  out : List OutTok
deriving DecidableEq

/-- `NewConsoleReporter`, with Go zero values for the unset fields. -/
def NewConsoleReporter : ConsoleReporter :=
  { ExitCode := 0, IntendSize := 0, execFrame := { Start := 0, End := 0 },
    total := 0, failed := 0, skipped := 0, out := [] }

/-- `Init` opens the run-level frame at the current instant. -/
def ConsoleReporter.Init (r : ConsoleReporter) (now : Int) : ConsoleReporter :=
  { r with execFrame := { Start := now, End := 0 } }

/-- `Write`: append one chunk to the sink. -/
def ConsoleReporter.Write (r : ConsoleReporter) (t : OutTok) : ConsoleReporter :=
  { r with out := r.out ++ [t] }

/-- `StartLine` writes a newline and the current indentation. -/
def ConsoleReporter.StartLine (r : ConsoleReporter) : ConsoleReporter :=
  (r.Write (.str "\n")).Write (.str (String.mk (List.replicate r.IntendSize.toNat ' ')))

/-- `Intend` grows the indentation by `DefaultIntendSize`. -/
def ConsoleReporter.Intend (r : ConsoleReporter) : ConsoleReporter :=
  { r with IntendSize := r.IntendSize + DefaultIntendSize }

/-- `Unintend` shrinks the indentation by `DefaultIntendSize`. -/
def ConsoleReporter.Unintend (r : ConsoleReporter) : ConsoleReporter :=
  { r with IntendSize := r.IntendSize - DefaultIntendSize }

/-- `WriteDimmed` prints the content through a high-black color writer. -/
def ConsoleReporter.WriteDimmed (r : ConsoleReporter) (content : String) : ConsoleReporter :=
  r.Write (.dim content)

/-- `WriteStatus` selects icon or label by the output mode and prints it in
the status color. -/
def ConsoleReporter.WriteStatus (r : ConsoleReporter) (status : Status) (output : Nat) : ConsoleReporter :=
  let val := ""
  let val := if output = OutputIcon then status.Icon else val
  let val := if output = OutputLabel then status.Label else val
  r.Write (.colored val status.Color)

/-- Body of the expectation loop in `ConsoleReporter.Report`. -/
def ConsoleReporter.reportExp (r : ConsoleReporter) (e : String × Bool) : ConsoleReporter :=
  let r := r.Intend
  let r := r.StartLine
  let r := if e.2 then r.WriteStatus StatusFailed OutputIcon
           else r.WriteStatus StatusPassed OutputIcon
  let r := (r.Write (.str " ")).WriteDimmed e.1
  r.Unintend

/-- Body of the trace loop in `ConsoleReporter.Report`; a trace with no
request descriptor is skipped. -/
def ConsoleReporter.reportTrace (r : ConsoleReporter) (trace : Trace) : ConsoleReporter :=
  match trace.Req with
  | none => r
  | some req =>
    let r := r.Intend
    let r := r.StartLine
    let r := ((((r.Write (.str req.Method)).Write (.str " ")).Write (.str req.URL)).Write
      (.str " [")).Write (.dur trace.ExecFrame.Duration)
    let r := r.Write (.str "]")
    let r := trace.ExpDesc.foldl ConsoleReporter.reportExp r
    let r := r.StartLine
    r.Unintend

/-- Body of the result loop in `ConsoleReporter.Report`: count the result,
indent, start the branch line, then render the skipped or the
passed/failed shape. -/
def ConsoleReporter.reportOne (r : ConsoleReporter) (result : TestResult) : ConsoleReporter :=
  let r := { r with total := r.total + 1 }
  let r := r.Intend
  let r := r.StartLine
  let r := (r.Write (.str CaretIcon)).Write (.str " ")
  if result.Skipped then
    let r := ((r.WriteStatus StatusSkipped OutputLabel).Write (.str " ")).Write (.str result.Case.Name)
    let r := ((r.Write (.str " (")).Write (.str result.SkippedMsg)).Write (.str ")")
    let r := { r with skipped := r.skipped + 1 }
    r.Unintend
  else
    let r :=
      if result.hasError then
        let r := r.WriteStatus StatusFailed OutputLabel
        { r with failed := r.failed + 1 }
      else r.WriteStatus StatusPassed OutputLabel
    let r := (r.Write (.str " ")).Write (.str result.Case.Name)
    let r := ((r.Write (.str " [")).Write (.dur result.ExecFrame.Duration)).Write (.str "]")
    let r := result.Traces.foldl ConsoleReporter.reportTrace r
    r.Unintend

/-- `ConsoleReporter.Report`: under the sink lock, an empty batch returns
at once with nothing changed; otherwise print the suite header line, render
every result in order and close with a fresh line. -/
def ConsoleReporter.Report (r : ConsoleReporter) (results : List TestResult) : ConsoleReporter :=
  match results with
  | [] => r
  | first :: _ =>
    let r := r.StartLine
    let r := r.Write (.str first.Suite.FullName)
    let r := results.foldl ConsoleReporter.reportOne r
    r.StartLine

/-- Summary printed by `ConsoleReporter.Flush`: overall verdict, counts and
run times; the passed count is printed as total − failed − skipped. -/
structure Summary where
  overall : String
  testCount : Nat
  passedCount : Int
  failedCount : Nat
  skippedCount : Nat
  startTime : Int
  endTime : Int
  runDuration : Int
deriving DecidableEq

/-- `ConsoleReporter.Flush`: close the run frame, decide the overall
verdict from the failed counter and emit the summary table. -/
def ConsoleReporter.Flush (r : ConsoleReporter) (now : Int) : Summary :=
  let fr : TimeFrame := { r.execFrame with End := now }
  let overall := "PASSED"
  let overall := if r.failed ≠ 0 then "FAILED" else overall
  { overall := overall, testCount := r.total,
    passedCount := (r.total : Int) - r.failed - r.skipped,
    failedCount := r.failed, skippedCount := r.skipped,
    startTime := fr.Start, endTime := fr.End, runDuration := fr.End - fr.Start }

/-- A whole run at the console: one `Report` call per batch, in order. -/
def ConsoleReporter.processAll (r : ConsoleReporter) (batches : List (List TestResult)) : ConsoleReporter :=
  batches.foldl ConsoleReporter.Report r

/-- Empty `properties` element of the JUnit schema. -/
structure properties where
deriving DecidableEq

/-- `failure` child element: a fixed type tag (field `Typ` models the Go
field `Type`, serialized as the `type` attribute), the message and the
character-data details. -/
structure failure where
  Typ : String
  Message : String
  Details : String
deriving DecidableEq

/-- `skipped` child element with its optional message. -/
structure skipped where
  Message : String
deriving DecidableEq

/-- `tc` testcase element; its duration (serialized in seconds as float64)
is modelled as the exact integer duration of the case frame. -/
structure tc where
  Name : String
  ClassName : String
  Time : Int
  Failure : Option failure := none
  Skipped : Option skipped := none
deriving DecidableEq

/-- `suite` document: the Go struct, with `Time` (serialized in seconds as
float64) modelled as the exact integer duration and `TimeStamp` (serialized
by formatting the instant as an ISO-8601 millisecond UTC string) modelled
as the instant itself; fields not set at construction carry their Go zero
values as defaults. -/
structure suite where
  ID : Nat := 0
  Name : String := ""
  PackageName : String := ""
  TimeStamp : Int := 0
  Time : Int := 0
  HostName : String := ""
  Tests : Nat := 0
  Failures : Nat := 0
  Errors : Nat := 0
  Skipped : Nat := 0
  Properties : properties := {}
  Cases : List tc := []
  SystemOut : String := ""
  SystemErr : String := ""
  fullName : String := ""
deriving DecidableEq

/-- One iteration of the loop in `JUnitXMLReporter.Report`: create the
suite document from the first result when it is still absent, build the
case record, bump the counters and widen the suite time frame (`now` is
the clock value read for the document's timestamp). -/
def junitStep (now : Int) (acc : Option suite × TimeFrame) (result : TestResult) : Option suite × TimeFrame :=
  let state : suite × TimeFrame :=
    match acc.1 with
    | none =>
      ({ ID := 0, Name := result.Suite.Name, PackageName := result.Suite.PackageName,
         TimeStamp := now, fullName := result.Suite.FullName, HostName := "localhost" },
       result.ExecFrame)
    | some s => (s, acc.2)
  let s := state.1
  let stf := state.2
  let testCase : tc :=
    { Name := result.Case.Name, ClassName := s.fullName, Time := result.ExecFrame.Duration }
  let step2 : tc × suite :=
    match result.Error with
    | some errMsg =>
      ({ testCase with Failure := some { Typ := "FailedExpectation", Message := errMsg, Details := errMsg ++ "\n\n" } },
       { s with Failures := s.Failures + 1 })
    | none => (testCase, s)
  let testCase := step2.1
  let s := step2.2
  let step3 : tc × suite :=
    if result.Skipped then
      ({ testCase with Skipped := some { Message := result.SkippedMsg } },
       { s with Skipped := s.Skipped + 1 })
    else (testCase, s)
  let testCase := step3.1
  let s := step3.2
  let s := { s with Tests := s.Tests + 1, ID := s.ID + 1, Cases := s.Cases ++ [testCase] }
  let stf := stf.Extend result.ExecFrame
  let s := { s with Time := stf.Duration }
  (some s, stf)

/-- `JUnitXMLReporter.Report` builds the per-suite document by folding the
batch (the source then hands the document to `flushSuite`; the persistence
step is modelled separately by `JUnitXMLReporter.flushSuite`). -/
def JUnitXMLReporter.Report (now : Int) (results : List TestResult) : Option suite :=
  (results.foldl (junitStep now) (none, { Start := 0, End := 0 })).1

/-- Outcome of the file-system operations performed by `flushSuite`:
whether `MkdirAll`, `Create`, `xml.Marshal` and the final `Write` succeed. -/
structure FsBehavior where
  mkdirOk : Bool
  createOk : Bool
  marshalOk : Bool
  writeOk : Bool
deriving DecidableEq

/-- Observable outcome of `flushSuite`: either a panic at a given stage, or
a normal return recording whether the report file was created and whether
its content was actually written. -/
inductive FlushOutcome where
  | panicked (stage : String)
  | completed (fileCreated : Bool) (contentWritten : Bool)
deriving DecidableEq

/-- `JUnitXMLReporter.flushSuite`: a nil suite returns at once; `MkdirAll`,
`Create` and `xml.Marshal` failures panic; the error returned by the final
`f.Write(data)` is discarded, so a failed write still returns normally. -/
def JUnitXMLReporter.flushSuite (env : FsBehavior) (s : Option suite) : FlushOutcome :=
  match s with
  | none => .completed false false
  | some _ =>
    if env.mkdirOk = false then .panicked "MkdirAll"
    else if env.createOk = false then .panicked "Create"
    else if env.marshalOk = false then .panicked "Marshal"
    else .completed true env.writeOk

/-- Behaviour of one member reporter, over an abstract observable world `σ`
with fatal errors `ε` (a Go panic is modelled as `Except.error`). -/
structure MReporter (σ ε : Type) where
  Init : σ → Except ε σ
  Report : List TestResult → σ → Except ε σ
  Flush : σ → Except ε σ

/-- `MultiReporter` holds the ordered member list. -/
structure MultiReporter (σ ε : Type) where
  Reporters : List (MReporter σ ε)

/-- Folding a list of world-transforming calls in order, stopping at the
first fatal error — the meaning of a Go `for` loop whose body may panic. -/
def runAll {σ ε : Type} (fs : List (σ → Except ε σ)) (w : σ) : Except ε σ :=
  fs.foldlM (fun w f => f w) w

/-- `MultiReporter.Report` calls every member's `Report` in list order. -/
def MultiReporter.Report {σ ε : Type} (r : MultiReporter σ ε) (results : List TestResult) (w : σ) : Except ε σ :=
  r.Reporters.foldlM (fun w rep => rep.Report results w) w

/-- `MultiReporter.Init` calls every member's `Init` in list order. -/
def MultiReporter.Init {σ ε : Type} (r : MultiReporter σ ε) (w : σ) : Except ε σ :=
  r.Reporters.foldlM (fun w rep => rep.Init w) w

/-- `MultiReporter.Flush` calls every member's `Flush` in list order. -/
def MultiReporter.Flush {σ ε : Type} (r : MultiReporter σ ε) (w : σ) : Except ε σ :=
  r.Reporters.foldlM (fun w rep => rep.Flush w) w

/-! ### Console counter lemmas -/

lemma reportExp_total (r : ConsoleReporter) (e : String × Bool) :
    (r.reportExp e).total = r.total := by
  rcases e with ⟨s, b⟩
  cases b <;> rfl

lemma reportExp_failed (r : ConsoleReporter) (e : String × Bool) :
    (r.reportExp e).failed = r.failed := by
  rcases e with ⟨s, b⟩
  cases b <;> rfl

lemma reportExp_skipped (r : ConsoleReporter) (e : String × Bool) :
    (r.reportExp e).skipped = r.skipped := by
  rcases e with ⟨s, b⟩
  cases b <;> rfl

lemma foldExp_total : ∀ (l : List (String × Bool)) (r : ConsoleReporter),
    (l.foldl ConsoleReporter.reportExp r).total = r.total
  | [], _ => rfl
  | e :: l, r => by rw [List.foldl_cons, foldExp_total l, reportExp_total]

lemma foldExp_failed : ∀ (l : List (String × Bool)) (r : ConsoleReporter),
    (l.foldl ConsoleReporter.reportExp r).failed = r.failed
  | [], _ => rfl
  | e :: l, r => by rw [List.foldl_cons, foldExp_failed l, reportExp_failed]

lemma foldExp_skipped : ∀ (l : List (String × Bool)) (r : ConsoleReporter),
    (l.foldl ConsoleReporter.reportExp r).skipped = r.skipped
  | [], _ => rfl
  | e :: l, r => by rw [List.foldl_cons, foldExp_skipped l, reportExp_skipped]

lemma reportTrace_total (r : ConsoleReporter) (t : Trace) :
    (r.reportTrace t).total = r.total := by
  rcases t with ⟨req, fr, exps⟩
  cases req with
  | none => rfl
  | some rq =>
    simp [ConsoleReporter.reportTrace, ConsoleReporter.StartLine, ConsoleReporter.Write,
      ConsoleReporter.Intend, ConsoleReporter.Unintend, foldExp_total]

lemma reportTrace_failed (r : ConsoleReporter) (t : Trace) :
    (r.reportTrace t).failed = r.failed := by
  rcases t with ⟨req, fr, exps⟩
  cases req with
  | none => rfl
  | some rq =>
    simp [ConsoleReporter.reportTrace, ConsoleReporter.StartLine, ConsoleReporter.Write,
      ConsoleReporter.Intend, ConsoleReporter.Unintend, foldExp_failed]

lemma reportTrace_skipped (r : ConsoleReporter) (t : Trace) :
    (r.reportTrace t).skipped = r.skipped := by
  rcases t with ⟨req, fr, exps⟩
  cases req with
  | none => rfl
  | some rq =>
    simp [ConsoleReporter.reportTrace, ConsoleReporter.StartLine, ConsoleReporter.Write,
      ConsoleReporter.Intend, ConsoleReporter.Unintend, foldExp_skipped]

lemma foldTrace_total : ∀ (l : List Trace) (r : ConsoleReporter),
    (l.foldl ConsoleReporter.reportTrace r).total = r.total
  | [], _ => rfl
  | t :: l, r => by rw [List.foldl_cons, foldTrace_total l, reportTrace_total]

lemma foldTrace_failed : ∀ (l : List Trace) (r : ConsoleReporter),
    (l.foldl ConsoleReporter.reportTrace r).failed = r.failed
  | [], _ => rfl
  | t :: l, r => by rw [List.foldl_cons, foldTrace_failed l, reportTrace_failed]

lemma foldTrace_skipped : ∀ (l : List Trace) (r : ConsoleReporter),
    (l.foldl ConsoleReporter.reportTrace r).skipped = r.skipped
  | [], _ => rfl
  | t :: l, r => by rw [List.foldl_cons, foldTrace_skipped l, reportTrace_skipped]

lemma reportOne_total (r : ConsoleReporter) (res : TestResult) :
    (r.reportOne res).total = r.total + 1 := by
  rcases res with ⟨su, cse, fr, err, sk, skm, tr⟩
  cases sk
  · cases err <;>
      simp [ConsoleReporter.reportOne, TestResult.hasError, ConsoleReporter.StartLine,
        ConsoleReporter.Write, ConsoleReporter.WriteStatus, ConsoleReporter.WriteDimmed,
        ConsoleReporter.Intend, ConsoleReporter.Unintend, foldTrace_total]
  · rfl

lemma reportOne_skipped (r : ConsoleReporter) (res : TestResult) :
    (r.reportOne res).skipped = r.skipped + (if res.Skipped then 1 else 0) := by
  rcases res with ⟨su, cse, fr, err, sk, skm, tr⟩
  cases sk
  · cases err <;>
      simp [ConsoleReporter.reportOne, TestResult.hasError, ConsoleReporter.StartLine,
        ConsoleReporter.Write, ConsoleReporter.WriteStatus, ConsoleReporter.WriteDimmed,
        ConsoleReporter.Intend, ConsoleReporter.Unintend, foldTrace_skipped]
  · rfl

lemma reportOne_failed (r : ConsoleReporter) (res : TestResult) :
    (r.reportOne res).failed = r.failed + (if !res.Skipped && res.hasError then 1 else 0) := by
  rcases res with ⟨su, cse, fr, err, sk, skm, tr⟩
  cases sk
  · cases err <;>
      simp [ConsoleReporter.reportOne, TestResult.hasError, ConsoleReporter.StartLine,
        ConsoleReporter.Write, ConsoleReporter.WriteStatus, ConsoleReporter.WriteDimmed,
        ConsoleReporter.Intend, ConsoleReporter.Unintend, foldTrace_failed]
  · simp [ConsoleReporter.reportOne, TestResult.hasError, ConsoleReporter.StartLine,
      ConsoleReporter.Write, ConsoleReporter.WriteStatus, ConsoleReporter.WriteDimmed,
      ConsoleReporter.Intend, ConsoleReporter.Unintend]

lemma foldOne_total : ∀ (rs : List TestResult) (r : ConsoleReporter),
    (rs.foldl ConsoleReporter.reportOne r).total = r.total + rs.length
  | [], _ => rfl
  | res :: rs, r => by
    rw [List.foldl_cons, foldOne_total rs, reportOne_total, List.length_cons]
    omega

lemma foldOne_skipped : ∀ (rs : List TestResult) (r : ConsoleReporter),
    (rs.foldl ConsoleReporter.reportOne r).skipped =
      r.skipped + rs.countP (fun res => res.Skipped)
  | [], _ => rfl
  | res :: rs, r => by
    rw [List.foldl_cons, foldOne_skipped rs, reportOne_skipped, List.countP_cons]
    cases h : res.Skipped
    · simp [h]
    · simp [h]
      omega

lemma foldOne_failed : ∀ (rs : List TestResult) (r : ConsoleReporter),
    (rs.foldl ConsoleReporter.reportOne r).failed =
      r.failed + rs.countP (fun res => !res.Skipped && res.hasError)
  | [], _ => rfl
  | res :: rs, r => by
    rw [List.foldl_cons, foldOne_failed rs, reportOne_failed, List.countP_cons]
    cases h : (!res.Skipped && res.hasError)
    · simp [h]
    · simp [h]
      omega

lemma StartLine_total (r : ConsoleReporter) : r.StartLine.total = r.total := rfl

lemma StartLine_failed (r : ConsoleReporter) : r.StartLine.failed = r.failed := rfl

lemma StartLine_skipped (r : ConsoleReporter) : r.StartLine.skipped = r.skipped := rfl

lemma Write_total (r : ConsoleReporter) (t : OutTok) : (r.Write t).total = r.total := rfl

lemma Write_failed (r : ConsoleReporter) (t : OutTok) : (r.Write t).failed = r.failed := rfl

lemma Write_skipped (r : ConsoleReporter) (t : OutTok) : (r.Write t).skipped = r.skipped := rfl

lemma Report_total (r : ConsoleReporter) (rs : List TestResult) :
    (r.Report rs).total = r.total + rs.length := by
  cases rs with
  | nil => rfl
  | cons a l =>
    simp only [ConsoleReporter.Report]
    rw [StartLine_total, foldOne_total, Write_total, StartLine_total]

lemma Report_skipped (r : ConsoleReporter) (rs : List TestResult) :
    (r.Report rs).skipped = r.skipped + rs.countP (fun res => res.Skipped) := by
  cases rs with
  | nil => rfl
  | cons a l =>
    simp only [ConsoleReporter.Report]
    rw [StartLine_skipped, foldOne_skipped, Write_skipped, StartLine_skipped]

lemma Report_failed (r : ConsoleReporter) (rs : List TestResult) :
    (r.Report rs).failed = r.failed + rs.countP (fun res => !res.Skipped && res.hasError) := by
  cases rs with
  | nil => rfl
  | cons a l =>
    simp only [ConsoleReporter.Report]
    rw [StartLine_failed, foldOne_failed, Write_failed, StartLine_failed]

lemma processAll_total : ∀ (batches : List (List TestResult)) (r : ConsoleReporter),
    (r.processAll batches).total = r.total + batches.flatten.length
  | [], _ => rfl
  | b :: bs, r => by
    show ((r.Report b).processAll bs).total = _
    rw [processAll_total bs, Report_total, List.flatten_cons, List.length_append]
    omega

lemma processAll_skipped : ∀ (batches : List (List TestResult)) (r : ConsoleReporter),
    (r.processAll batches).skipped =
      r.skipped + batches.flatten.countP (fun res => res.Skipped)
  | [], _ => rfl
  | b :: bs, r => by
    show ((r.Report b).processAll bs).skipped = _
    rw [processAll_skipped bs, Report_skipped, List.flatten_cons, List.countP_append]
    omega

lemma processAll_failed : ∀ (batches : List (List TestResult)) (r : ConsoleReporter),
    (r.processAll batches).failed =
      r.failed + batches.flatten.countP (fun res => !res.Skipped && res.hasError)
  | [], _ => rfl
  | b :: bs, r => by
    show ((r.Report b).processAll bs).failed = _
    rw [processAll_failed bs, Report_failed, List.flatten_cons, List.countP_append]
    omega

/-! ### JUnit suite-document lemmas -/

lemma TimeFrame.Extend_self (t : TimeFrame) : t.Extend t = t := by
  simp [TimeFrame.Extend]

/-- Proof-layer abbreviation for the case record `junitStep` appends. -/
def junitCaseOf (fullName : String) (r : TestResult) : tc :=
  { Name := r.Case.Name, ClassName := fullName, Time := r.ExecFrame.Duration,
    Failure := r.Error.map (fun errMsg => { Typ := "FailedExpectation", Message := errMsg, Details := errMsg ++ "\n\n" }),
    Skipped := if r.Skipped then some { Message := r.SkippedMsg } else none }

/-- Proof-layer abbreviation for the suite update one `junitStep` performs. -/
def junitBump (s : suite) (stf : TimeFrame) (r : TestResult) : suite :=
  { s with
    Failures := s.Failures + (if r.Error.isSome then 1 else 0),
    Skipped := s.Skipped + (if r.Skipped then 1 else 0),
    Tests := s.Tests + 1, ID := s.ID + 1,
    Cases := s.Cases ++ [junitCaseOf s.fullName r],
    Time := (stf.Extend r.ExecFrame).Duration }

lemma junitStep_some (now : Int) (s : suite) (stf : TimeFrame) (r : TestResult) :
    junitStep now (some s, stf) r = (some (junitBump s stf r), stf.Extend r.ExecFrame) := by
  rcases r with ⟨su, cse, fr, err, sk, skm, tr⟩
  cases err <;> cases sk <;> rfl

/-- Proof-layer abbreviation for the suite document created from the first
result of a batch. -/
def junitInitial (now : Int) (r : TestResult) : suite :=
  { ID := 0, Name := r.Suite.Name, PackageName := r.Suite.PackageName,
    TimeStamp := now, fullName := r.Suite.FullName, HostName := "localhost" }

lemma junitStep_none (now : Int) (stf0 : TimeFrame) (r : TestResult) :
    junitStep now (none, stf0) r =
      (some (junitBump (junitInitial now r) r.ExecFrame r), r.ExecFrame.Extend r.ExecFrame) := by
  rcases r with ⟨su, cse, fr, err, sk, skm, tr⟩
  cases err <;> cases sk <;> rfl

lemma junit_foldl_fields (now : Int) : ∀ (rs : List TestResult) (s : suite) (stf : TimeFrame),
    (rs.foldl (junitStep now) (some s, stf)).2 =
        rs.foldl (fun acc res => acc.Extend res.ExecFrame) stf ∧
    ∃ s2, (rs.foldl (junitStep now) (some s, stf)).1 = some s2 ∧
      s2.Tests = s.Tests + rs.length ∧
      s2.ID = s.ID + rs.length ∧
      s2.Failures = s.Failures + rs.countP (fun res => res.Error.isSome) ∧
      s2.Skipped = s.Skipped + rs.countP (fun res => res.Skipped) ∧
      s2.TimeStamp = s.TimeStamp ∧
      s2.Time = (if rs.isEmpty then s.Time
        else (rs.foldl (fun acc res => acc.Extend res.ExecFrame) stf).Duration)
  | [], s, stf => by
    refine ⟨rfl, s, rfl, ?_, ?_, ?_, ?_, rfl, ?_⟩ <;> simp
  | r :: rs, s, stf => by
    rw [List.foldl_cons, List.foldl_cons, junitStep_some]
    obtain ⟨h2, s2, h1, hT, hID, hF, hS, hTS, hTime⟩ :=
      junit_foldl_fields now rs (junitBump s stf r) (stf.Extend r.ExecFrame)
    refine ⟨h2, s2, h1, ?_, ?_, ?_, ?_, ?_, ?_⟩
    · rw [hT]
      simp [junitBump]
      omega
    · rw [hID]
      simp [junitBump]
      omega
    · rw [hF, List.countP_cons]
      cases hE : r.Error.isSome
      · simp [junitBump, hE]
      · simp [junitBump, hE]
        omega
    · rw [hS, List.countP_cons]
      cases hSk : r.Skipped
      · simp [junitBump, hSk]
      · simp [junitBump, hSk]
        omega
    · rw [hTS]
      simp [junitBump]
    · rw [hTime]
      cases rs with
      | nil => simp [junitBump]
      | cons r2 rs2 => simp

lemma junit_report_fields (now : Int) (first : TestResult) (rest : List TestResult) :
    ∃ s2, JUnitXMLReporter.Report now (first :: rest) = some s2 ∧
      s2.Tests = rest.length + 1 ∧
      s2.ID = rest.length + 1 ∧
      s2.Failures = (first :: rest).countP (fun res => res.Error.isSome) ∧
      s2.Skipped = (first :: rest).countP (fun res => res.Skipped) ∧
      s2.TimeStamp = now ∧
      s2.Time = (rest.foldl (fun acc res => acc.Extend res.ExecFrame) first.ExecFrame).Duration := by
  unfold JUnitXMLReporter.Report
  rw [List.foldl_cons, junitStep_none]
  obtain ⟨h2, s2, h1, hT, hID, hF, hS, hTS, hTime⟩ :=
    junit_foldl_fields now rest (junitBump (junitInitial now first) first.ExecFrame first)
      (first.ExecFrame.Extend first.ExecFrame)
  refine ⟨s2, h1, ?_, ?_, ?_, ?_, ?_, ?_⟩
  · rw [hT]
    simp [junitBump, junitInitial]
    omega
  · rw [hID]
    simp [junitBump, junitInitial]
    omega
  · rw [hF, List.countP_cons]
    cases hE : first.Error.isSome
    · simp [junitBump, junitInitial, hE]
    · simp [junitBump, junitInitial, hE]
      omega
  · rw [hS, List.countP_cons]
    cases hSk : first.Skipped
    · simp [junitBump, junitInitial, hSk]
    · simp [junitBump, junitInitial, hSk]
      omega
  · rw [hTS]
    simp [junitBump, junitInitial]
  · rw [hTime]
    cases rest with
    | nil => simp [junitBump, TimeFrame.Extend_self]
    | cons r2 rs2 => rw [TimeFrame.Extend_self]; simp

lemma foldl_Extend_Start : ∀ (rs : List TestResult) (stf : TimeFrame),
    (rs.foldl (fun acc res => acc.Extend res.ExecFrame) stf).Start =
      rs.foldl (fun acc res => min acc res.ExecFrame.Start) stf.Start
  | [], _ => rfl
  | r :: rs, stf => by
    rw [List.foldl_cons, List.foldl_cons, foldl_Extend_Start rs]
    rfl

lemma foldl_Extend_End : ∀ (rs : List TestResult) (stf : TimeFrame),
    (rs.foldl (fun acc res => acc.Extend res.ExecFrame) stf).End =
      rs.foldl (fun acc res => max acc res.ExecFrame.End) stf.End
  | [], _ => rfl
  | r :: rs, stf => by
    rw [List.foldl_cons, List.foldl_cons, foldl_Extend_End rs]
    rfl

/-! ### MultiReporter lemmas -/

lemma runAll_nil {σ ε : Type} (w : σ) : runAll ([] : List (σ → Except ε σ)) w = Except.ok w := rfl

lemma runAll_cons {σ ε : Type} (f : σ → Except ε σ) (fs : List (σ → Except ε σ)) (w : σ) :
    runAll (f :: fs) w = f w >>= fun w2 => runAll fs w2 := rfl

lemma error_bind {σ ε β : Type} (e : ε) (f : σ → Except ε β) :
    (Except.error e >>= f) = Except.error e := rfl

lemma ok_bind {σ ε β : Type} (w : σ) (f : σ → Except ε β) :
    (Except.ok w >>= f : Except ε β) = f w := rfl

lemma runAll_fail_fast {σ ε : Type} :
    ∀ (pre : List (σ → Except ε σ)) (post : List (σ → Except ε σ)) (badf : σ → Except ε σ) (w : σ),
    (∀ w2, ∃ e, badf w2 = Except.error e) →
    runAll (pre ++ badf :: post) w = runAll (pre ++ [badf]) w ∧
      ∀ w3, runAll (pre ++ badf :: post) w ≠ Except.ok w3
  | [], post, badf, w, hbad => by
    obtain ⟨e, he⟩ := hbad w
    rw [List.nil_append, List.nil_append, runAll_cons, runAll_cons, he, error_bind, error_bind]
    exact ⟨rfl, fun w3 h => by exact Except.noConfusion h⟩
  | f :: pre, post, badf, w, hbad => by
    rw [List.cons_append, List.cons_append, runAll_cons, runAll_cons]
    cases hf : f w with
    | error e =>
      rw [error_bind, error_bind]
      exact ⟨rfl, fun w3 h => by exact Except.noConfusion h⟩
    | ok w2 =>
      rw [ok_bind, ok_bind]
      exact runAll_fail_fast pre post badf w2 hbad

lemma foldlM_eq_runAll {σ ε α : Type} (g : α → σ → Except ε σ) :
    ∀ (l : List α) (w : σ), l.foldlM (fun w a => g a w) w = runAll (l.map g) w
  | [], _ => rfl
  | a :: l, w => by
    rw [List.map_cons, runAll_cons]
    show g a w >>= (fun w2 => List.foldlM (fun w a => g a w) w2 l) = _
    cases hf : g a w with
    | error e => rw [error_bind, error_bind]
    | ok w2 =>
      rw [ok_bind, ok_bind]
      exact foldlM_eq_runAll g l w2

lemma MultiReporter_Report_eq_runAll {σ ε : Type} (r : MultiReporter σ ε) (results : List TestResult) (w : σ) :
    r.Report results w = runAll (r.Reporters.map (fun rep => rep.Report results)) w :=
  foldlM_eq_runAll (fun (rep : MReporter σ ε) => rep.Report results) r.Reporters w

lemma MultiReporter_Init_eq_runAll {σ ε : Type} (r : MultiReporter σ ε) (w : σ) :
    r.Init w = runAll (r.Reporters.map (fun rep => rep.Init)) w :=
  foldlM_eq_runAll (fun (rep : MReporter σ ε) => rep.Init) r.Reporters w

lemma MultiReporter_Flush_eq_runAll {σ ε : Type} (r : MultiReporter σ ε) (w : σ) :
    r.Flush w = runAll (r.Reporters.map (fun rep => rep.Flush)) w :=
  foldlM_eq_runAll (fun (rep : MReporter σ ε) => rep.Flush) r.Reporters w

/-! ### Concrete sample data -/

/-- Sample suite reference. -/
def demoSuiteRef : Suite := { Name := "sample", FullName := "pkg.sample", PackageName := "pkg" }

/-- Sample case. -/
def demoCase : Case := { Name := "case-a" }

/-- Sample execution frame. -/
def demoFrame : TimeFrame := { Start := 0, End := 10 }

/-- Sample passed result. -/
def demoPassed : TestResult :=
  { Suite := demoSuiteRef, Case := demoCase, ExecFrame := demoFrame,
    Error := none, Skipped := false, SkippedMsg := "", Traces := [] }

/-- Sample result that is both skipped and carries a failure message. -/
def demoSkippedFailure : TestResult :=
  { demoPassed with Error := some "boom", Skipped := true, SkippedMsg := "later" }

/-- Sample skipped result with no reason text. -/
def demoSkippedNoReason : TestResult := { demoPassed with Skipped := true }

/-- Sample skipped result with a reason. -/
def demoSkippedReason : TestResult :=
  { demoPassed with Skipped := true, SkippedMsg := "flag disabled" }

/-- Sample suite document. -/
def demoSuiteDoc : suite := { Name := "sample", fullName := "pkg.sample" }

/-! ### Claim theorems -/

lemma countP_partition (l : List TestResult) :
    l.countP (fun res => res.Skipped) +
      l.countP (fun res => !res.Skipped && res.hasError) +
      l.countP (fun res => !res.Skipped && !res.hasError) = l.length := by
  induction l with
  | nil => rfl
  | cons a l ih =>
    rw [List.countP_cons, List.countP_cons, List.countP_cons, List.length_cons]
    cases hS : a.Skipped
    · cases hE : a.hasError
      · simp [hS, hE]
        all_goals omega
      · simp [hS, hE]
        all_goals omega
    · simp [hS]
      all_goals omega

/-- C1: every `ConsoleReporter.Report` call bumps `total` once per result,
`skipped` once per result with the skipped flag and `failed` once per
non-skipped result carrying a failure; over a whole run the passed count
printed by `Flush` (total − failed − skipped) equals the number of
non-skipped, non-failed results and reconciles with the other counters;
and the XML suite document sets `tests` to the batch size, `failures` to
the number of results with a non-nil failure and `skipped` to the number
of results with the skipped flag. -/
theorem counts_reconcile :
    (∀ (r : ConsoleReporter) (results : List TestResult),
      (r.Report results).total = r.total + results.length ∧
      (r.Report results).skipped = r.skipped + results.countP (fun res => res.Skipped) ∧
      (r.Report results).failed = r.failed + results.countP (fun res => !res.Skipped && res.hasError)) ∧
    (∀ (t0 t1 : Int) (batches : List (List TestResult)),
      (((NewConsoleReporter.Init t0).processAll batches).Flush t1).passedCount =
        batches.flatten.countP (fun res => !res.Skipped && !res.hasError) ∧
      ((((NewConsoleReporter.Init t0).processAll batches).Flush t1).testCount : Int) =
        (((NewConsoleReporter.Init t0).processAll batches).Flush t1).passedCount +
          (((NewConsoleReporter.Init t0).processAll batches).Flush t1).failedCount +
          (((NewConsoleReporter.Init t0).processAll batches).Flush t1).skippedCount) ∧
    (∀ (first : TestResult) (rest : List TestResult) (now : Int),
      (JUnitXMLReporter.Report now (first :: rest)).map suite.Tests =
        some (first :: rest).length ∧
      (JUnitXMLReporter.Report now (first :: rest)).map suite.Failures =
        some ((first :: rest).countP (fun res => res.Error.isSome)) ∧
      (JUnitXMLReporter.Report now (first :: rest)).map suite.Skipped =
        some ((first :: rest).countP (fun res => res.Skipped))) := by
  refine ⟨fun r results => ⟨Report_total r results, Report_skipped r results, Report_failed r results⟩,
    fun t0 t1 batches => ?_, fun first rest now => ?_⟩
  · have hT := processAll_total batches (NewConsoleReporter.Init t0)
    have hF := processAll_failed batches (NewConsoleReporter.Init t0)
    have hS := processAll_skipped batches (NewConsoleReporter.Init t0)
    have hP := countP_partition batches.flatten
    simp only [ConsoleReporter.Flush]
    rw [hT, hF, hS]
    simp only [ConsoleReporter.Init, NewConsoleReporter]
    constructor
    · push_cast
      omega
    · push_cast
      omega
  · obtain ⟨s2, hs, hT2, hID2, hF2, hS2, hTS2, hTime2⟩ := junit_report_fields now first rest
    rw [hs]
    refine ⟨?_, ?_, ?_⟩
    · rw [Option.map_some', hT2]
      simp
    · rw [Option.map_some', hF2]
    · rw [Option.map_some', hS2]

/-- C3: the `time` attribute of the XML suite document equals the duration
of the union of all case execution frames of the batch — latest case end
minus earliest case start. -/
theorem junit_suite_time_union (first : TestResult) (rest : List TestResult) (now : Int) :
    (JUnitXMLReporter.Report now (first :: rest)).map suite.Time =
      some ((rest.foldl (fun acc res => max acc res.ExecFrame.End) first.ExecFrame.End) -
        (rest.foldl (fun acc res => min acc res.ExecFrame.Start) first.ExecFrame.Start)) := by
  obtain ⟨s2, hs, hT2, hID2, hF2, hS2, hTS2, hTime2⟩ := junit_report_fields now first rest
  rw [hs, Option.map_some', hTime2, TimeFrame.Duration, foldl_Extend_Start, foldl_Extend_End]

/-- C4 counterexample: with a batch whose first frame is available (start 0,
end 10) and a reporting clock of 999, the suite timestamp is 999 — the
reporting time, not a value taken from the first result's frame. -/
theorem junit_timestamp_clock_cex :
    (JUnitXMLReporter.Report 999 [demoPassed]).map suite.TimeStamp = some 999 ∧
    demoPassed.ExecFrame.Start = 0 ∧ demoPassed.ExecFrame.End = 10 ∧
    (999 : Int) ≠ 0 ∧ (999 : Int) ≠ 10 := by
  refine ⟨rfl, rfl, rfl, ?_, ?_⟩ <;> decide

/-- C4 (amended): the `timestamp` attribute of the XML suite document is
the ISO-8601 UTC formatting of the reporting time (the clock read when the
suite document is created), regardless of the first result's frame. -/
theorem junit_timestamp_is_reporting_time (first : TestResult) (rest : List TestResult) (now : Int) :
    (JUnitXMLReporter.Report now (first :: rest)).map suite.TimeStamp = some now := by
  obtain ⟨s2, hs, hT2, hID2, hF2, hS2, hTS2, hTime2⟩ := junit_report_fields now first rest
  rw [hs, Option.map_some', hTS2]

/-- C6: in `flushSuite`, directory-creation and file-creation failures
panic, but the error of the final file write is discarded — the write
failure completes normally with the content unwritten, so that I/O failure
is not fatal, contradicting the claim. -/
theorem flushSuite_io_failures :
    JUnitXMLReporter.flushSuite { mkdirOk := false, createOk := true, marshalOk := true, writeOk := true }
        (some demoSuiteDoc) = FlushOutcome.panicked "MkdirAll" ∧
    JUnitXMLReporter.flushSuite { mkdirOk := true, createOk := false, marshalOk := true, writeOk := true }
        (some demoSuiteDoc) = FlushOutcome.panicked "Create" ∧
    JUnitXMLReporter.flushSuite { mkdirOk := true, createOk := true, marshalOk := true, writeOk := false }
        (some demoSuiteDoc) = FlushOutcome.completed true false :=
  ⟨rfl, rfl, rfl⟩

/-- C7 counterexample: a skipped case with an empty reason still gets the
parenthesized reason text — the console output contains the opening
" (" and closing ")" chunks around the empty message. -/
theorem console_skipped_empty_reason_cex :
    demoSkippedNoReason.SkippedMsg = "" ∧
    OutTok.str " (" ∈ (NewConsoleReporter.Report [demoSkippedNoReason]).out ∧
    OutTok.str ")" ∈ (NewConsoleReporter.Report [demoSkippedNoReason]).out := by
  refine ⟨rfl, ?_, ?_⟩ <;> decide

/-- C7 (amended): for every skipped result the console emits the SKIPPED
label, the case name, and parentheses containing the (possibly empty) skip
reason — the parentheses are emitted whether or not a reason is present. -/
theorem console_skipped_render (r : ConsoleReporter) (res : TestResult) (h : res.Skipped = true) :
    (r.reportOne res).out = r.out ++
      [OutTok.str "\n",
       OutTok.str (String.mk (List.replicate (r.IntendSize + DefaultIntendSize).toNat ' ')),
       OutTok.str CaretIcon, OutTok.str " ",
       OutTok.colored "SKIPPED" 33, OutTok.str " ",
       OutTok.str res.Case.Name,
       OutTok.str " (", OutTok.str res.SkippedMsg, OutTok.str ")"] := by
  rcases res with ⟨su, cse, fr, err, sk, skm, tr⟩
  subst h
  simp [ConsoleReporter.reportOne, ConsoleReporter.StartLine, ConsoleReporter.Write,
    ConsoleReporter.WriteStatus, ConsoleReporter.Intend, ConsoleReporter.Unintend,
    StatusSkipped, OutputLabel, OutputIcon, CaretIcon, List.append_assoc]

/-- C7 witness: the amended rendering shape at a concrete skipped result. -/
theorem console_skipped_render_witness :
    (NewConsoleReporter.reportOne demoSkippedReason).out = NewConsoleReporter.out ++
      [OutTok.str "\n",
       OutTok.str (String.mk (List.replicate (NewConsoleReporter.IntendSize + DefaultIntendSize).toNat ' ')),
       OutTok.str CaretIcon, OutTok.str " ",
       OutTok.colored "SKIPPED" 33, OutTok.str " ",
       OutTok.str demoSkippedReason.Case.Name,
       OutTok.str " (", OutTok.str demoSkippedReason.SkippedMsg, OutTok.str ")"] :=
  console_skipped_render NewConsoleReporter demoSkippedReason rfl

/-- C9: an empty batch is a no-op at the public interface — the console
state is returned unchanged, the XML reporter builds no suite document and
the persistence step writes no file for an absent document. -/
theorem empty_batch_noop (r : ConsoleReporter) (now : Int) (env : FsBehavior) :
    r.Report [] = r ∧ JUnitXMLReporter.Report now [] = none ∧
    JUnitXMLReporter.flushSuite env none = FlushOutcome.completed false false :=
  ⟨rfl, rfl, rfl⟩

/-- C10: the `id` attribute of the XML suite document equals the batch
size, hence always equals the `tests` attribute — it is a per-batch count,
not a run-level sequential identifier. -/
theorem junit_id_equals_tests (first : TestResult) (rest : List TestResult) (now : Int) :
    (JUnitXMLReporter.Report now (first :: rest)).map suite.ID = some (first :: rest).length ∧
    (JUnitXMLReporter.Report now (first :: rest)).map suite.ID =
      (JUnitXMLReporter.Report now (first :: rest)).map suite.Tests := by
  obtain ⟨s2, hs, hT2, hID2, hF2, hS2, hTS2, hTime2⟩ := junit_report_fields now first rest
  rw [hs]
  constructor
  · rw [Option.map_some', hID2]
    simp
  · rw [Option.map_some', Option.map_some', hID2, hT2]

/-- C2 counterexample: a run whose only reported case is skipped but
carries a non-nil failure message ends with the console overall result
PASSED — the skipped case's failure is not counted, so the claimed iff
over all cases with a non-nil failure is false. -/
theorem console_overall_skipped_failure_cex :
    (((NewConsoleReporter.Init 0).processAll [[demoSkippedFailure]]).Flush 5).overall = "PASSED" ∧
    demoSkippedFailure.Error = some "boom" ∧ demoSkippedFailure.Skipped = true := by
  refine ⟨?_, rfl, rfl⟩
  rfl

/-- C2 (amended): after any run, the console overall result is FAILED iff
at least one non-skipped reported case had a non-nil failure; failures
carried by skipped cases never count. -/
theorem console_overall_failed_iff (t0 t1 : Int) (batches : List (List TestResult)) :
    (((NewConsoleReporter.Init t0).processAll batches).Flush t1).overall = "FAILED" ↔
      ∃ batch ∈ batches, ∃ res ∈ batch, res.Skipped = false ∧ res.hasError = true := by
  have hF := processAll_failed batches (NewConsoleReporter.Init t0)
  have h0 : (NewConsoleReporter.Init t0).failed = 0 := rfl
  rw [h0] at hF
  have key : (((NewConsoleReporter.Init t0).processAll batches).Flush t1).overall = "FAILED" ↔
      batches.flatten.countP (fun res => !res.Skipped && res.hasError) ≠ 0 := by
    simp only [ConsoleReporter.Flush]
    rw [hF]
    by_cases hc : batches.flatten.countP (fun res => !res.Skipped && res.hasError) = 0
    · simp [hc]
    · simp [hc]
  rw [key]
  constructor
  · intro h
    obtain ⟨a, ha, hp⟩ := List.countP_pos_iff.mp (Nat.pos_of_ne_zero h)
    rw [List.mem_flatten] at ha
    obtain ⟨l, hl, hal⟩ := ha
    rw [Bool.and_eq_true, Bool.not_eq_true'] at hp
    exact ⟨l, hl, a, hal, hp.1, hp.2⟩
  · rintro ⟨l, hl, a, hal, h1, h2⟩
    apply Nat.pos_iff_ne_zero.mp
    apply List.countP_pos_iff.mpr
    refine ⟨a, List.mem_flatten.mpr ⟨l, hl, hal⟩, ?_⟩
    rw [Bool.and_eq_true, Bool.not_eq_true']
    exact ⟨h1, h2⟩

/-- Member reporter that records its tag in the world and succeeds. -/
def okMember (i : Nat) : MReporter (List Nat) (List Nat) :=
  { Init := fun w => Except.ok (w ++ [i]),
    Report := fun _ w => Except.ok (w ++ [i]),
    Flush := fun w => Except.ok (w ++ [i]) }

/-- Member reporter whose every call raises a fatal error carrying the log. -/
def badMember : MReporter (List Nat) (List Nat) :=
  { Init := fun w => Except.error (w ++ [1]),
    Report := fun _ w => Except.error (w ++ [1]),
    Flush := fun w => Except.error (w ++ [1]) }

/-- C5: `MultiReporter.Report`, `Init` and `Flush` invoke their members
sequentially in the fixed list order (the cons unfolding in the last
conjunct), and when one member's call raises a fatal error the call never
succeeds and its outcome is identical to the run without the members after
the failing one — they are not invoked. -/
theorem multi_fail_fast {σ ε : Type} (pre post : List (MReporter σ ε)) (bad : MReporter σ ε)
    (b : List TestResult) (w : σ)
    (hR : ∀ w2, ∃ e, bad.Report b w2 = Except.error e)
    (hI : ∀ w2, ∃ e, bad.Init w2 = Except.error e)
    (hF : ∀ w2, ∃ e, bad.Flush w2 = Except.error e) :
    (MultiReporter.Report ⟨pre ++ bad :: post⟩ b w = MultiReporter.Report ⟨pre ++ [bad]⟩ b w ∧
      ∀ w3, MultiReporter.Report ⟨pre ++ bad :: post⟩ b w ≠ Except.ok w3) ∧
    (MultiReporter.Init ⟨pre ++ bad :: post⟩ w = MultiReporter.Init ⟨pre ++ [bad]⟩ w ∧
      ∀ w3, MultiReporter.Init ⟨pre ++ bad :: post⟩ w ≠ Except.ok w3) ∧
    (MultiReporter.Flush ⟨pre ++ bad :: post⟩ w = MultiReporter.Flush ⟨pre ++ [bad]⟩ w ∧
      ∀ w3, MultiReporter.Flush ⟨pre ++ bad :: post⟩ w ≠ Except.ok w3) ∧
    (∀ (rep : MReporter σ ε) (rs : List (MReporter σ ε)) (w2 : σ),
      MultiReporter.Report ⟨rep :: rs⟩ b w2 =
        rep.Report b w2 >>= fun w3 => MultiReporter.Report ⟨rs⟩ b w3) := by
  refine ⟨?_, ?_, ?_, ?_⟩
  · rw [MultiReporter_Report_eq_runAll, MultiReporter_Report_eq_runAll]
    simp only [List.map_append, List.map_cons, List.map_nil]
    exact runAll_fail_fast _ _ _ w hR
  · rw [MultiReporter_Init_eq_runAll, MultiReporter_Init_eq_runAll]
    simp only [List.map_append, List.map_cons, List.map_nil]
    exact runAll_fail_fast _ _ _ w hI
  · rw [MultiReporter_Flush_eq_runAll, MultiReporter_Flush_eq_runAll]
    simp only [List.map_append, List.map_cons, List.map_nil]
    exact runAll_fail_fast _ _ _ w hF
  · intro rep rs w2
    simp only [MultiReporter_Report_eq_runAll, List.map_cons]
    rw [runAll_cons]

/-- C5 witness: with members [tag 0, failing, tag 2], the broadcast call
fails, and its outcome equals the run without the member after the failing
one. -/
theorem multi_fail_fast_witness :
    MultiReporter.Report { Reporters := [okMember 0, badMember, okMember 2] } [] [] =
      MultiReporter.Report { Reporters := [okMember 0, badMember] } [] [] ∧
    MultiReporter.Report { Reporters := [okMember 0, badMember, okMember 2] } [] [] ≠
      Except.ok [0, 1, 2] := by
  have h := multi_fail_fast [okMember 0] [okMember 2] badMember [] []
    (fun w2 => ⟨w2 ++ [1], rfl⟩) (fun w2 => ⟨w2 ++ [1], rfl⟩) (fun w2 => ⟨w2 ++ [1], rfl⟩)
  exact ⟨h.1.1, h.1.2 [0, 1, 2]⟩
